import Mathlib

/-!
Formal model of the `modelservice` core: corpus loading (`app/data.py`),
the transfer-model registry and the asset path resolver
(`app/inference.py`), the training orchestrator (`app/trainer.py`) and
the `/predict` endpoint (`app/main.py`).

Modelling conventions: POSIX paths are lists of components; decoded image
tensors and loaded keras model objects are opaque tokens; probabilities
are rationals; the filesystem, the image decoder and the neural network
are explicit environment parameters.  The registry's mutable fields
become an explicit state value threaded through the operations.
-/

namespace Diagnose

/-- Decoded image tensors, abstracted to opaque tokens. -/
abbrev Img := Nat

/-- Loaded keras model objects, abstracted to opaque tokens. -/
abbrev ModelHandle := Nat

/-- The empty string (used for the `if not raw_path` emptiness test). -/
def emptyStr : String := ""

/-- A single-dot path segment, dropped by `pathlib` path parsing. -/
def dotStr : String := "."

/-- The parent-directory path segment. -/
def dotDotStr : String := ".."

/-- The literal leading segment the resolver strips from relative paths. -/
def assetsStr : String := "assets"

/-- Positive class subdirectory name (`CLASS_MAP` key with label 1). -/
def cStr : String := "c"

/-- Negative class subdirectory name (`CLASS_MAP` key with label 0). -/
def ncStr : String := "nc"

/-- Message of the `ValueError` raised on an empty `image_path`. -/
def msgMustProvide : String := "image_path must be provided"

/-- Message of the `ValueError` raised when containment fails. -/
def msgMustReside : String := "image_path must reside under the assets directory"

/-- Message of the `FileNotFoundError` raised on a nonexistent asset. -/
def msgImageNotFound : String := "Image not found"

/-- Message of the `FileNotFoundError` raised when the weights artifact is absent. -/
def msgWeightsMissing : String := "Weights file missing. Train the transfer model before inference."

/-- Message of the `ValueError` raised when `cv2.imread` cannot decode a file. -/
def msgUnableToRead : String := "Unable to read image"

/-- Message of the `FileNotFoundError` raised when no candidate files exist. -/
def msgNoImagesFound : String := "No images found under root"

/-- Message of the `ValueError` raised when every candidate failed to decode. -/
def msgAllImagesFailed : String := "All images under root failed to load"

/-- Split the characters of a raw POSIX path at slashes, accumulating the
current segment in reverse; yields the raw segments of the path. -/
def splitSlashAux (cur : List Char) : List Char → List String
  | [] => [String.mk cur.reverse]
  | ch :: rest =>
      if ch = '/' then String.mk cur.reverse :: splitSlashAux [] rest
      else splitSlashAux (ch :: cur) rest

/-- The components of Python `Path(raw).parts` (root marker aside): split on
slashes and drop empty and single-dot segments, as `pathlib` does. -/
def pathParts (raw : String) : List String :=
  (splitSlashAux [] raw.toList).filter (fun s => s != emptyStr && s != dotStr)

/-- `Path.is_absolute()` for POSIX raw paths. -/
def isAbsolutePath (raw : String) : Bool :=
  raw.toList.head? = some '/'

/-- `Path.resolve()` on a symlink-free filesystem: interpret the components
left to right against a base, a `..` removing the last component of the
base (a no-op at the filesystem root, as in POSIX). -/
def normResolve (base : List String) : List String → List String
  | [] => base
  | p :: rest =>
      if p = dotDotStr then normResolve base.dropLast rest
      else normResolve (base ++ [p]) rest

/-- Errors raised by `resolve_asset_path`: `ValueError` (mapped to 400 by the
endpoint) and `FileNotFoundError` (mapped to 404). -/
inductive ResolveError
  | validationError (msg : String)
  | notFoundError (msg : String)
deriving DecidableEq

/-- The canonical absolute path `resolve_asset_path` computes before its
containment check: an absolute input resolves on its own, a relative input
first has a literal leading `assets` segment stripped and then resolves
against the assets directory. -/
def canonicalizedPath (assetsDir : List String) (raw : String) : List String :=
  let parts := pathParts raw
  if isAbsolutePath raw then normResolve [] parts
  else
    let cleaned := if parts.head? = some assetsStr then parts.tail else parts
    normResolve assetsDir cleaned

/-- `resolve_asset_path` from `app/inference.py`: reject an empty input,
canonicalize, test containment in the assets directory with
`Path.relative_to` (a components-prefix test on the canonical forms,
accepting equality), then test existence. -/
def resolve_asset_path (assetsDir : List String) (pathExists : List String → Bool)
    (raw : String) : Except ResolveError (List String) :=
  if raw = emptyStr then .error (.validationError msgMustProvide)
  else
    let resolved := canonicalizedPath assetsDir raw
    if assetsDir.isPrefixOf resolved then
      if pathExists resolved then .ok resolved
      else .error (.notFoundError msgImageNotFound)
    else .error (.validationError msgMustReside)

/-- A directory entry as `Path.iterdir` yields it. -/
structure DirEntry where
  name : String
  isFile : Bool
deriving DecidableEq

/-- A corpus root directory: the optional `c` and `nc` class subdirectories
with their entries (`none` means the subdirectory does not exist). -/
structure RootDir where
  c : Option (List DirEntry)
  nc : Option (List DirEntry)

/-- A candidate sample's location: class subdirectory name and file name. -/
abbrev SamplePath := String × String

/-- Errors raised by the data module: `FileNotFoundError` and `ValueError`. -/
inductive DataError
  | fileNotFound (msg : String)
  | valueError (msg : String)
deriving DecidableEq

/-- The regular files of one class subdirectory, tagged with the class name;
an absent directory contributes nothing, non-files are skipped. -/
def classFiles (clsName : String) : Option (List DirEntry) → List SamplePath
  | none => []
  | some entries => (entries.filter (fun e => e.isFile)).map (fun e => (clsName, e.name))

/-- `_gather_files`: iterate `CLASS_MAP` in insertion order (`c` with label 1,
then `nc` with label 0), collecting every regular file of each present class
directory into parallel path and label lists. -/
def gather_files (fs : RootDir) : List SamplePath × List Int :=
  let cFiles := classFiles cStr fs.c
  let ncFiles := classFiles ncStr fs.nc
  (cFiles ++ ncFiles,
   List.replicate cFiles.length 1 ++ List.replicate ncFiles.length 0)

/-- The zipped candidate list `zip(file_paths, labels)` that `load_dataset`
scans. -/
def candidates (fs : RootDir) : List (SamplePath × Int) :=
  (gather_files fs).1.zip (gather_files fs).2

/-- `load_image`: `cv2.imread` (`read`, yielding `none` on an undecodable
file) followed by the color-conversion/resize/scale pipeline (`transform`);
raises `ValueError` exactly when the read yields nothing. -/
def load_image (read : SamplePath → Option Img) (transform : Img → Img)
    (p : SamplePath) : Except DataError Img :=
  match read p with
  | none => .error (.valueError msgUnableToRead)
  | some i => .ok (transform i)

/-- The decode loop of `load_dataset`: each success appends image and label
in order; a `ValueError` appends the path to the skipped list and the scan
continues with the next candidate. -/
def scanFiles (read : SamplePath → Option Img) (transform : Img → Img) :
    List (SamplePath × Int) → List Img × List Int × List SamplePath
  | [] => ([], [], [])
  | (p, l) :: rest =>
      let r := scanFiles read transform rest
      match load_image read transform p with
      | .ok i => (i :: r.1, l :: r.2.1, r.2.2)
      | .error _ => (r.1, r.2.1, p :: r.2.2)

/-- `load_dataset`: gather candidates and fail with `FileNotFoundError` when
there are none; decode each candidate, skipping failures; fail with
`ValueError` when every decode failed; otherwise return the images, the
parallel retained labels, and the skipped count that the warning logs. -/
def load_dataset (read : SamplePath → Option Img) (transform : Img → Img)
    (fs : RootDir) : Except DataError (List Img × List Int × Nat) :=
  if (gather_files fs).1 = [] then .error (.fileNotFound msgNoImagesFound)
  else
    let scanned := scanFiles read transform (candidates fs)
    if scanned.1 = [] then .error (.valueError msgAllImagesFailed)
    else .ok (scanned.1, scanned.2.1, scanned.2.2.length)

/-- The error `_load_model` raises: `FileNotFoundError` on a missing weights
artifact (mapped to 400 by the endpoint). -/
inductive RegError
  | weightsMissing (msg : String)
deriving DecidableEq

/-- The mutable fields of `TransferModelRegistry`: the cached model object
and the weights digest, both `None` initially. -/
structure RegistryState where
  model : Option ModelHandle
  weightsDigest : Option String
deriving DecidableEq

/-- `TransferModelRegistry.__init__`: empty cache, empty digest. -/
def initRegistry : RegistryState := ⟨none, none⟩

/-- `reset`: under the lock, clear the cached model and the digest
unconditionally. -/
def reset (st : RegistryState) : RegistryState :=
  match st with
  | _ => ⟨none, none⟩

/-- The registry's environment: whether the weights artifact currently
exists on disk, its modification-time digest, the model object that
`build_transfer_model` plus `load_weights` would produce now, and the
network's sigmoid output on a single-image batch. -/
structure RegistryEnv where
  weightsExists : Bool
  weightsMtime : String
  freshHandle : ModelHandle
  run : ModelHandle → Img → ℚ

/-- `_load_model`: first test the artifact's existence — on every call, before
consulting the cache — raising `FileNotFoundError` when it is missing; then
build, load and install a model only when the cache is empty (recording the
mtime digest); return the handle together with the updated state. -/
def load_model (env : RegistryEnv) (st : RegistryState) :
    Except RegError ModelHandle × RegistryState :=
  if env.weightsExists = false then (.error (.weightsMissing msgWeightsMissing), st)
  else
    match st.model with
    | some m => (.ok m, st)
    | none =>
        (.ok env.freshHandle,
         ⟨some env.freshHandle, some env.weightsMtime⟩)

/-- `predict`: load (or reuse) the cached model, run it on a single-item
batch, and return the sigmoid output paired with one minus it. -/
def predict (env : RegistryEnv) (st : RegistryState) (image : Img) :
    Except RegError (ℚ × ℚ) × RegistryState :=
  match load_model env st with
  | (.ok m, st') => (.ok (env.run m image, 1 - env.run m image), st')
  | (.error e, st') => (.error e, st')

/-- `weights_version`: under the lock, the digest of the cached handle, or
`none` when the cache is empty. -/
def weights_version (st : RegistryState) : Option String :=
  st.weightsDigest

/-- One atomic step of a thread executing a first-time `predict`'s
`_load_model` — which acquires no lock in the source, so every step here is
freely interleavable.  Program counter positions: 0 = about to test
`WEIGHTS_PATH.exists()` (assumed present), 1 = about to test
`self._model is None`, 2 = about to build the model and load its weights,
3 = about to install it into `self._model`, 4 = finished. -/
def loadStep (model : Option ModelHandle) (loads : Nat) (pc : Nat) :
    Option ModelHandle × Nat × Nat :=
  match pc with
  | 0 => (model, loads, 1)
  | 1 => if model.isNone then (model, loads, 2) else (model, loads, 4)
  | 2 => (model, loads + 1, 3)
  | 3 => (some 0, loads, 4)
  | _ => (model, loads, pc)

/-- Global state of two concurrent first-time `predict` calls: the shared
`_model` field, the count of underlying weight loads performed, and each
thread's program counter. -/
structure TwoThreads where
  model : Option ModelHandle
  loads : Nat
  pcA : Nat
  pcB : Nat
deriving DecidableEq

/-- Run an interleaving: `true` steps thread A, `false` steps thread B. -/
def runSchedule (s : TwoThreads) : List Bool → TwoThreads
  | [] => s
  | t :: rest =>
      if t then
        let r := loadStep s.model s.loads s.pcA
        runSchedule ⟨r.1, r.2.1, r.2.2, s.pcB⟩ rest
      else
        let r := loadStep s.model s.loads s.pcB
        runSchedule ⟨r.1, r.2.1, s.pcA, r.2.2⟩ rest

/-- Both threads poised at the start of `_load_model` with an empty cache. -/
def bothFirstCallers : TwoThreads := ⟨none, 0, 0, 0⟩

/-- `TrainRequest` (`app/schemas.py`): field ranges are validated at the
boundary; `batch_size` is optional. -/
structure TrainRequest where
  epochs : Nat
  patience : Nat
  learning_rate : ℚ
  batch_size : Option Nat
  augment : Bool

/-- `TrainMetrics`: epochs actually trained and the final evaluation. -/
structure TrainMetrics where
  epochs_trained : Nat
  val_accuracy : ℚ
  val_loss : ℚ
deriving DecidableEq

/-- `TrainResponse`: metrics for both models plus the weights path. -/
structure TrainResponse where
  baseline : TrainMetrics
  transfer : TrainMetrics
  weights_path : String
deriving DecidableEq

/-- The two models the orchestrator builds and trains. -/
inductive ModelKind
  | baseline
  | transfer
deriving DecidableEq

/-- The training environment: the corpus decoder, the two corpus roots, the
fixed weights-artifact path, the process-wide default batch size, and the
outcome of `_train_model` (fit with early stopping followed by one final
evaluation) for each model. -/
structure TrainEnv where
  read : SamplePath → Option Img
  transform : Img → Img
  trainFS : RootDir
  valFS : RootDir
  weightsPath : String
  defaultBatch : Nat
  fitEval : ModelKind → TrainMetrics

/-- A `save_weights` effect: the target path and which model was saved. -/
abbrev WeightsWrite := String × ModelKind

/-- `train_all` (`app/trainer.py`): load both corpora (propagating their
failures before any training), resolve the effective batch size, build the
two data streams, train the baseline and then the transfer model, persist
only the transfer model's weights to the fixed path, and return both metric
sets; the returned write list records every `save_weights` call the run
performs, in order. -/
def train_all (env : TrainEnv) (req : TrainRequest) :
    Except DataError (TrainResponse × List WeightsWrite) := do
  let _trainCorpus ← load_dataset env.read env.transform env.trainFS
  let _valCorpus ← load_dataset env.read env.transform env.valFS
  let _batchSize := req.batch_size.getD env.defaultBatch
  let baselineMetrics := env.fitEval .baseline
  let transferMetrics := env.fitEval .transfer
  .ok (⟨baselineMetrics, transferMetrics, env.weightsPath⟩,
       [(env.weightsPath, .transfer)])

/-- The literal `0.5` of the classification threshold, as a rational. -/
def zeroPointFive : ℚ := ⟨1, 2, by decide, by decide⟩

/-- `PredictResponse` (`app/schemas.py`), the `raw_scores` dict split into
its two keys. -/
structure PredictResponse where
  label : String
  probability : ℚ
  raw_c : ℚ
  raw_nc : ℚ
  weights_version : Option String
deriving DecidableEq

/-- What a `/predict` request produces: a JSON response, an `HTTPException`
with a status code, or an exception that escaped every `try` block. -/
inductive Outcome
  | response (r : PredictResponse)
  | httpError (status : Nat) (detail : String)
  | unhandledError (msg : String)
deriving DecidableEq

/-- The request environment of `/predict`: the resolver's view of the
filesystem, the image decoder, and the registry environment. -/
structure AppEnv where
  assetsDir : List String
  pathExists : List String → Bool
  imread : List String → Option Img
  transform : Img → Img
  reg : RegistryEnv

/-- The decoded image at a resolved path as `data.load_image` produces it
for the endpoint: `none` when `cv2.imread` cannot decode the file. -/
def readDecoded (env : AppEnv) (p : List String) : Option Img :=
  (env.imread p).map env.transform

/-- `classify_image` (`POST /predict`, `app/main.py`): resolve the path with
`ValueError` mapped to 400 and `FileNotFoundError` to 404; decode the image
outside any `try` block, so a decode `ValueError` escapes unmapped; predict
with a missing-weights `FileNotFoundError` mapped to 400; threshold the
positive probability at 0.5 and report the returned label's probability,
both raw scores and the registry's current weights version. -/
def classify_image (env : AppEnv) (st : RegistryState) (raw : String) :
    Outcome × RegistryState :=
  match resolve_asset_path env.assetsDir env.pathExists raw with
  | .error (.validationError m) => (.httpError 400 m, st)
  | .error (.notFoundError m) => (.httpError 404 m, st)
  | .ok imagePath =>
      match readDecoded env imagePath with
      | none => (.unhandledError msgUnableToRead, st)
      | some image =>
          match predict env.reg st image with
          | (.error (.weightsMissing m), st') => (.httpError 400 m, st')
          | (.ok probs, st') =>
              let label := if probs.1 ≥ zeroPointFive then cStr else ncStr
              (.response
                ⟨label,
                 if label = cStr then probs.1 else probs.2,
                 probs.1, probs.2,
                 weights_version st'⟩, st')

/-- The literal traversal input of the spec's example. -/
def traversalStr : String := "../../etc/passwd"

/-- First component of the traversal target. -/
def etcStr : String := "etc"

/-- Second component of the traversal target. -/
def passwdStr : String := "passwd"

/-- A concrete mtime digest for witnesses. -/
def digestStr : String := "1700000000000000000"

/-- A concrete asset file name for witnesses. -/
def xStr : String := "x.jpg"

/-- A concrete relative request path for witnesses. -/
def xRelStr : String := "assets/x.jpg"

/-- A concrete weights path for witnesses. -/
def weightsPathStr : String := "mobilenet_transfer.weights.h5"

/-- Witness registry environment: artifact present, constant network. -/
def workingEnv : RegistryEnv := ⟨true, digestStr, 0, fun _ _ => 1⟩

/-- Witness registry environment: artifact absent. -/
def missingWeightsEnv : RegistryEnv := ⟨false, digestStr, 0, fun _ _ => 1⟩

/-- Witness registry state with a cached handle and digest. -/
def cachedState : RegistryState := ⟨some 7, some digestStr⟩

/-- The registry state a first successful predict under `workingEnv` installs. -/
def regAfterPredict : RegistryState := ⟨some 0, some digestStr⟩

/-- The probability pair a successful predict under `workingEnv` returns. -/
def onePair : ℚ × ℚ := (1, 1 - 1)

/-- A decodable sample file entry for witnesses. -/
def sampleEntry : DirEntry := ⟨xStr, true⟩

/-- Witness corpus root with one file in the `c` subdirectory. -/
def goodFS : RootDir := ⟨some [sampleEntry], none⟩

/-- Witness corpus root with neither class subdirectory. -/
def emptyFS : RootDir := ⟨none, none⟩

/-- Witness decoder that decodes everything. -/
def goodRead : SamplePath → Option Img := fun _ => some 0

/-- Witness decoder that decodes nothing. -/
def badRead : SamplePath → Option Img := fun _ => none

/-- Witness training environment over `goodFS`. -/
def trainEnvW : TrainEnv := ⟨goodRead, id, goodFS, goodFS, weightsPathStr, 32, fun _ => ⟨1, 1, 0⟩⟩

/-- Witness training request (defaults of `TrainRequest`). -/
def trainReqW : TrainRequest := ⟨10, 3, 1, none, true⟩

/-- The response `train_all trainEnvW trainReqW` yields. -/
def trainRespW : TrainResponse := ⟨⟨1, 1, 0⟩, ⟨1, 1, 0⟩, weightsPathStr⟩

/-- The write list `train_all trainEnvW trainReqW` yields. -/
def trainWritesW : List WeightsWrite := [(weightsPathStr, ModelKind.transfer)]

/-- Witness request environment: asset present and decodable. -/
def appEnvW : AppEnv := ⟨[assetsStr], fun _ => true, fun _ => some 0, id, workingEnv⟩

/-- Witness request environment: asset present but undecodable. -/
def appEnvBad : AppEnv := ⟨[assetsStr], fun _ => true, fun _ => none, id, workingEnv⟩

/-- The response `classify_image appEnvW initRegistry xRelStr` yields. -/
def respW : PredictResponse := ⟨cStr, 1, 1, 1 - 1, some digestStr⟩

theorem pathParts_traversal :
    pathParts traversalStr = [dotDotStr, dotDotStr, etcStr, passwdStr] := by decide

theorem isAbsolutePath_traversal : isAbsolutePath traversalStr = false := by decide

theorem normResolve_traversal (base : List String) :
    normResolve base [dotDotStr, dotDotStr, etcStr, passwdStr] =
      base.dropLast.dropLast ++ [etcStr, passwdStr] := by
  have h1 : etcStr ≠ dotDotStr := by decide
  have h2 : passwdStr ≠ dotDotStr := by decide
  simp [normResolve, h1, h2]

theorem canonicalizedPath_traversal (assetsDir : List String) :
    canonicalizedPath assetsDir traversalStr =
      assetsDir.dropLast.dropLast ++ [etcStr, passwdStr] := by
  have h3 : dotDotStr ≠ assetsStr := by decide
  simp [canonicalizedPath, pathParts_traversal, isAbsolutePath_traversal, h3,
    normResolve_traversal]

theorem traversal_not_contained (l : List String) (h0 : l ≠ []) (h1 : l ≠ [etcStr])
    (h2 : ¬ [etcStr, passwdStr] <:+ l) :
    ¬ l <+: (l.dropLast.dropLast ++ [etcStr, passwdStr]) := by
  intro hp
  rcases l with _ | ⟨a, _ | ⟨b, rest⟩⟩
  · exact h0 rfl
  · simp only [List.dropLast_single, List.dropLast_nil, List.nil_append] at hp
    rw [List.cons_prefix_cons] at hp
    exact h1 (by rw [hp.1])
  · have hlen : (a :: b :: rest).length =
        ((a :: b :: rest).dropLast.dropLast ++ [etcStr, passwdStr]).length := by
      simp [List.length_dropLast]
    have heq := List.IsPrefix.eq_of_length hp hlen
    exact h2 ⟨(a :: b :: rest).dropLast.dropLast, heq.symm⟩

/-- C1 (amended): the resolver checks containment on the canonical form —
every successful resolution lies under the asset root (as a non-strict
prefix), and whenever the canonical form is not under the root the call
fails with the containment `ValueError`; consequently `../../etc/passwd`
fails with that error for every asset root other than the filesystem root,
`/etc`, and roots whose last two components are `etc`, `passwd`. -/
theorem resolve_asset_path_traversal_guard (assetsDir : List String)
    (pathExists : List String → Bool)
    (h0 : assetsDir ≠ []) (h1 : assetsDir ≠ [etcStr])
    (h2 : ¬ [etcStr, passwdStr] <:+ assetsDir) :
    (∀ raw p, resolve_asset_path assetsDir pathExists raw = .ok p →
        assetsDir <+: p) ∧
    (∀ raw, raw ≠ emptyStr →
        ¬ assetsDir <+: canonicalizedPath assetsDir raw →
        resolve_asset_path assetsDir pathExists raw =
          .error (.validationError msgMustReside)) ∧
    resolve_asset_path assetsDir pathExists traversalStr =
      .error (.validationError msgMustReside) := by
  have notContained : ∀ raw, raw ≠ emptyStr →
      ¬ assetsDir <+: canonicalizedPath assetsDir raw →
      resolve_asset_path assetsDir pathExists raw =
        .error (.validationError msgMustReside) := by
    intro raw hne hnp
    have hfalse : assetsDir.isPrefixOf (canonicalizedPath assetsDir raw) = false := by
      rw [← Bool.not_eq_true, List.isPrefixOf_iff_prefix]
      exact hnp
    simp [resolve_asset_path, hne, hfalse]
  refine ⟨?_, notContained, ?_⟩
  · intro raw p h
    simp only [resolve_asset_path] at h
    split_ifs at h with he hpre hex
    injection h with h
    rw [← h]
    exact List.isPrefixOf_iff_prefix.mp hpre
  · refine notContained traversalStr (by decide) ?_
    rw [canonicalizedPath_traversal]
    exact traversal_not_contained assetsDir h0 h1 h2

/-- C1 witness: for the concrete asset root `/assets` (with every path
existing) the traversal input is rejected with the containment error. -/
theorem resolve_asset_path_traversal_guard_witness :
    resolve_asset_path [assetsStr] (fun _ => true) traversalStr =
      .error (.validationError msgMustReside) :=
  (resolve_asset_path_traversal_guard [assetsStr] (fun _ => true)
    (by decide) (by decide)
    (fun hs => by have := hs.length_le; simp at this)).2.2

/-- C1 counterexample: with the asset root at the filesystem root,
`../../etc/passwd` canonicalizes to `/etc/passwd`, which the containment
test accepts, so the claimed `ValidationError` is not raised — the call
resolves successfully. -/
theorem resolve_traversal_escapes_at_root :
    resolve_asset_path [] (fun _ => true) traversalStr =
      .ok [etcStr, passwdStr] := rfl

theorem scanFiles_zip_eq (read : SamplePath → Option Img) (transform : Img → Img)
    (cs : List (SamplePath × Int)) :
    ((scanFiles read transform cs).1.zip (scanFiles read transform cs).2.1) =
      cs.filterMap (fun pl => (read pl.1).map (fun i => (transform i, pl.2))) := by
  induction cs with
  | nil => simp [scanFiles]
  | cons hd tl ih =>
      obtain ⟨p, l⟩ := hd
      cases hr : read p <;> simp [scanFiles, load_image, hr, ih]

theorem scanFiles_images_length (read : SamplePath → Option Img) (transform : Img → Img)
    (cs : List (SamplePath × Int)) :
    (scanFiles read transform cs).1.length =
      (cs.filter (fun pl => (read pl.1).isSome)).length := by
  induction cs with
  | nil => simp [scanFiles]
  | cons hd tl ih =>
      obtain ⟨p, l⟩ := hd
      cases hr : read p <;> simp [scanFiles, load_image, hr, ih]

theorem scanFiles_labels_length (read : SamplePath → Option Img) (transform : Img → Img)
    (cs : List (SamplePath × Int)) :
    (scanFiles read transform cs).2.1.length = (scanFiles read transform cs).1.length := by
  induction cs with
  | nil => simp [scanFiles]
  | cons hd tl ih =>
      obtain ⟨p, l⟩ := hd
      cases hr : read p <;> simp [scanFiles, load_image, hr, ih]

theorem scanFiles_skipped_length (read : SamplePath → Option Img) (transform : Img → Img)
    (cs : List (SamplePath × Int)) :
    (scanFiles read transform cs).2.2.length =
      (cs.filter (fun pl => (read pl.1).isNone)).length := by
  induction cs with
  | nil => simp [scanFiles]
  | cons hd tl ih =>
      obtain ⟨p, l⟩ := hd
      cases hr : read p <;> simp [scanFiles, load_image, hr, ih]

theorem gather_files_lengths (fs : RootDir) :
    (gather_files fs).1.length = (gather_files fs).2.length := by
  simp [gather_files]

/-- C3: `load_dataset` fails with `FileNotFoundError` when no candidate files
exist, fails with `ValueError` when candidates exist but every one fails to
decode, and an individual decode failure never aborts the scan: as soon as
one candidate decodes, the call succeeds, dropping exactly the failing
candidates into the logged skip count and retaining exactly the decodable
ones. -/
theorem load_dataset_error_semantics (read : SamplePath → Option Img)
    (transform : Img → Img) (fs : RootDir) :
    ((gather_files fs).1 = [] →
        load_dataset read transform fs = .error (.fileNotFound msgNoImagesFound)) ∧
    ((gather_files fs).1 ≠ [] →
        (∀ pl ∈ candidates fs, read pl.1 = none) →
        load_dataset read transform fs = .error (.valueError msgAllImagesFailed)) ∧
    ((∃ pl ∈ candidates fs, (read pl.1).isSome) →
        load_dataset read transform fs =
          .ok ((scanFiles read transform (candidates fs)).1,
               (scanFiles read transform (candidates fs)).2.1,
               (candidates fs).countP (fun pl => (read pl.1).isNone)) ∧
        (scanFiles read transform (candidates fs)).1.length =
          (candidates fs).countP (fun pl => (read pl.1).isSome)) := by
  refine ⟨?_, ?_, ?_⟩
  · intro h0
    simp [load_dataset, h0]
  · intro hne hall
    have himgs : (scanFiles read transform (candidates fs)).1 = [] := by
      rw [← List.length_eq_zero, scanFiles_images_length, List.length_eq_zero,
        List.filter_eq_nil_iff]
      intro pl hpl
      simp [hall pl hpl]
    simp only [load_dataset]
    rw [if_neg hne, if_pos himgs]
  · rintro ⟨pl, hpl, hsome⟩
    have hne : (gather_files fs).1 ≠ [] := by
      intro h0
      rw [candidates, h0] at hpl
      simp at hpl
    have himgs : (scanFiles read transform (candidates fs)).1 ≠ [] := by
      intro hnil
      have hlen := scanFiles_images_length read transform (candidates fs)
      rw [hnil] at hlen
      simp only [List.length_nil] at hlen
      have hfil : (candidates fs).filter (fun pl => (read pl.1).isSome) = [] :=
        List.length_eq_zero.mp hlen.symm
      rw [List.filter_eq_nil_iff] at hfil
      exact absurd hsome (hfil pl hpl)
    constructor
    · simp only [load_dataset]
      rw [if_neg hne, if_neg himgs, scanFiles_skipped_length,
        List.countP_eq_length_filter]
    · rw [scanFiles_images_length, List.countP_eq_length_filter]

/-- C3 witness: the empty root fails with the not-found error, a root whose
sole candidate is undecodable fails with the all-failed error, and a root
with one decodable candidate succeeds with the counted skip list. -/
theorem load_dataset_error_semantics_witness :
    load_dataset goodRead id emptyFS = .error (.fileNotFound msgNoImagesFound) ∧
    load_dataset badRead id goodFS = .error (.valueError msgAllImagesFailed) ∧
    load_dataset goodRead id goodFS =
      .ok ((scanFiles goodRead id (candidates goodFS)).1,
           (scanFiles goodRead id (candidates goodFS)).2.1,
           (candidates goodFS).countP (fun pl => (goodRead pl.1).isNone)) :=
  ⟨(load_dataset_error_semantics goodRead id emptyFS).1 (by decide),
   (load_dataset_error_semantics badRead id goodFS).2.1 (by decide) (fun pl _ => rfl),
   ((load_dataset_error_semantics goodRead id goodFS).2.2
      ⟨((cStr, xStr), 1), by decide, by decide⟩).1⟩

/-- C6: every corpus returned by `load_dataset` has exactly as many labels as
images, at least one image, and the labels are parallel to the images:
zipping them yields precisely the decoded candidates with their class
labels, in scan order. -/
theorem load_dataset_corpus_invariant (read : SamplePath → Option Img)
    (transform : Img → Img) (fs : RootDir) (imgs : List Img) (labs : List Int)
    (k : Nat) (h : load_dataset read transform fs = .ok (imgs, labs, k)) :
    imgs.length = labs.length ∧ 1 ≤ imgs.length ∧
    imgs.zip labs = (candidates fs).filterMap
      (fun pl => (read pl.1).map (fun i => (transform i, pl.2))) := by
  simp only [load_dataset] at h
  split_ifs at h with h0 hempty
  rw [Except.ok.injEq, Prod.mk.injEq, Prod.mk.injEq] at h
  obtain ⟨h1, h2, _⟩ := h
  rw [← h1, ← h2]
  exact ⟨(scanFiles_labels_length read transform (candidates fs)).symm,
    List.length_pos.mpr hempty,
    scanFiles_zip_eq read transform (candidates fs)⟩

/-- C6 witness: the one-candidate corpus loads to a singleton image list with
the parallel positive label. -/
theorem load_dataset_corpus_invariant_witness :
    ([0] : List Img).length = ([1] : List Int).length ∧
    1 ≤ ([0] : List Img).length ∧
    ([0] : List Img).zip ([1] : List Int) = (candidates goodFS).filterMap
      (fun pl => (goodRead pl.1).map (fun i => (id i, pl.2))) :=
  load_dataset_corpus_invariant goodRead id goodFS [0] [1] 0 rfl

/-- C2 (code bug): `_load_model` acquires no lock, so the schedule that lets
both first-time callers pass the `self._model is None` test before either
installs a handle performs the underlying build-and-load twice — the claimed
at-most-one load under the lock fails on the code. -/
theorem double_load_schedule :
    (runSchedule bothFirstCallers
      [true, true, false, false, true, true, false, false]).loads = 2 := rfl

/-- C4: every successful `predict` result carries a negative probability
computed as one minus the positive one, so the pair sums to exactly one. -/
theorem predict_probabilities_sum_to_one (env : RegistryEnv) (st : RegistryState)
    (image : Img) (r : ℚ × ℚ) (st' : RegistryState)
    (h : predict env st image = (.ok r, st')) :
    r.2 = 1 - r.1 ∧ r.1 + r.2 = 1 := by
  unfold predict at h
  rcases hl : load_model env st with ⟨res, st''⟩
  rw [hl] at h
  cases res with
  | error e => simp at h
  | ok m =>
      rw [Prod.mk.injEq, Except.ok.injEq] at h
      rw [← h.1]
      exact ⟨rfl, by ring⟩

/-- C4 witness: the concrete first-call prediction under `workingEnv` returns
the pair whose second component is one minus the first, summing to one. -/
theorem predict_probabilities_sum_to_one_witness :
    onePair.2 = 1 - onePair.1 ∧ onePair.1 + onePair.2 = 1 :=
  predict_probabilities_sum_to_one workingEnv initRegistry 0 onePair
    regAfterPredict rfl

theorem predict_eval_missing (env : RegistryEnv) (st : RegistryState) (image : Img)
    (hw : env.weightsExists = false) :
    predict env st image = (.error (.weightsMissing msgWeightsMissing), st) := by
  simp [predict, load_model, hw]

theorem predict_eval_cached (env : RegistryEnv) (st : RegistryState) (image : Img)
    (m : ModelHandle) (hw : env.weightsExists = true) (hm : st.model = some m) :
    predict env st image = (.ok (env.run m image, 1 - env.run m image), st) := by
  simp [predict, load_model, hw, hm]

theorem predict_eval_fresh (env : RegistryEnv) (st : RegistryState) (image : Img)
    (hw : env.weightsExists = true) (hm : st.model = none) :
    predict env st image =
      (.ok (env.run env.freshHandle image, 1 - env.run env.freshHandle image),
       ⟨some env.freshHandle, some env.weightsMtime⟩) := by
  simp [predict, load_model, hw, hm]

/-- C5 (amended): `predict` tests the artifact's existence on every call and
fails with the missing-weights error whenever it is absent — even while a
handle is cached; when the artifact exists, a cached handle is reused with
the state unchanged, and a load is performed only on an empty cache (first
call or after invalidation), installing the fresh handle and digest. -/
theorem predict_load_policy (env : RegistryEnv) (st : RegistryState) (image : Img) :
    (env.weightsExists = false →
        predict env st image = (.error (.weightsMissing msgWeightsMissing), st)) ∧
    (env.weightsExists = true → ∀ m, st.model = some m →
        predict env st image = (.ok (env.run m image, 1 - env.run m image), st)) ∧
    (env.weightsExists = true → st.model = none →
        predict env st image =
          (.ok (env.run env.freshHandle image, 1 - env.run env.freshHandle image),
           ⟨some env.freshHandle, some env.weightsMtime⟩)) :=
  ⟨fun hw => predict_eval_missing env st image hw,
   fun hw m hm => predict_eval_cached env st image m hw hm,
   fun hw hm => predict_eval_fresh env st image hw hm⟩

/-- C5 witness: with the artifact present, a predict on a cached handle
reuses it and leaves the state unchanged. -/
theorem predict_load_policy_witness :
    predict workingEnv cachedState 0 =
      (.ok (workingEnv.run 7 0, 1 - workingEnv.run 7 0), cachedState) :=
  (predict_load_policy workingEnv cachedState 0).2.1 rfl 7 rfl

/-- C5 counterexample: a `predict` call made while a handle is cached still
fails with the missing-weights error once the artifact is gone, because
`_load_model` tests `WEIGHTS_PATH.exists()` before consulting the cache —
refuting the claim that a cached handle shields `predict` from
`WeightsMissingError`. -/
theorem predict_cached_still_fails_when_weights_missing :
    predict missingWeightsEnv cachedState 0 =
      (.error (.weightsMissing msgWeightsMissing), cachedState) := rfl

/-- C8: `reset` clears the cached handle unconditionally, so the version is
`none` immediately after it; a failing `predict` leaves the cleared state
(and hence the `none` version) in place, and a successful `predict` installs
a fresh handle whose digest becomes the version. -/
theorem reset_clears_version (st : RegistryState) (env : RegistryEnv) (image : Img) :
    weights_version (reset st) = none ∧
    (∀ e st', predict env (reset st) image = (.error e, st') →
        weights_version st' = none) ∧
    (∀ r st', predict env (reset st) image = (.ok r, st') →
        weights_version st' = some env.weightsMtime) := by
  refine ⟨rfl, ?_, ?_⟩
  · intro e st' h
    cases hw : env.weightsExists with
    | false =>
        rw [predict_eval_missing env (reset st) image hw, Prod.mk.injEq] at h
        rw [← h.2]
        rfl
    | true =>
        rw [predict_eval_fresh env (reset st) image hw rfl, Prod.mk.injEq] at h
        exact absurd h.1 (by simp)
  · intro r st' h
    cases hw : env.weightsExists with
    | false =>
        rw [predict_eval_missing env (reset st) image hw, Prod.mk.injEq] at h
        exact absurd h.1 (by simp)
    | true =>
        rw [predict_eval_fresh env (reset st) image hw rfl, Prod.mk.injEq] at h
        rw [← h.2]
        rfl

/-- C8 witness: after a reset the version is `none`, and the next successful
predict under `workingEnv` installs the artifact's digest as the version. -/
theorem reset_clears_version_witness :
    weights_version (reset cachedState) = none ∧
    weights_version regAfterPredict = some workingEnv.weightsMtime :=
  ⟨(reset_clears_version cachedState workingEnv 0).1,
   (reset_clears_version cachedState workingEnv 0).2.2 onePair regAfterPredict rfl⟩

/-- C7: every successful `train_all` run performs exactly one weights write —
the transfer model's weights to the fixed artifact path (overwriting
whatever was there); the baseline model's weights are never persisted. -/
theorem train_all_persists_only_transfer (env : TrainEnv) (req : TrainRequest)
    (resp : TrainResponse) (writes : List WeightsWrite)
    (h : train_all env req = .ok (resp, writes)) :
    writes = [(env.weightsPath, ModelKind.transfer)] := by
  unfold train_all at h
  cases h1 : load_dataset env.read env.transform env.trainFS with
  | error e =>
      rw [h1] at h
      simp [Bind.bind, Except.bind] at h
  | ok tc =>
      cases h2 : load_dataset env.read env.transform env.valFS with
      | error e =>
          rw [h1, h2] at h
          simp [Bind.bind, Except.bind] at h
      | ok vc =>
          rw [h1, h2] at h
          simp only [Bind.bind, Except.bind] at h
          rw [Except.ok.injEq, Prod.mk.injEq] at h
          exact h.2.symm

/-- C7 witness: the concrete successful run over `goodFS` writes exactly the
transfer model's weights to the fixed path. -/
theorem train_all_persists_only_transfer_witness :
    trainWritesW = [(weightsPathStr, ModelKind.transfer)] :=
  train_all_persists_only_transfer trainEnvW trainReqW trainRespW trainWritesW rfl

theorem zeroPointFive_eq : zeroPointFive = 1 / 2 := by
  apply Rat.ext <;> norm_num [zeroPointFive]

/-- C9: every response `/predict` returns is labelled `c` exactly when its
positive raw score is at least one half; the label is always `c` or `nc`,
and the probability field is the raw score of the returned label (the
positive score under `c`, the negative score under `nc`). -/
theorem classify_label_threshold (env : AppEnv) (st : RegistryState) (raw : String)
    (r : PredictResponse) (st' : RegistryState)
    (h : classify_image env st raw = (.response r, st')) :
    (r.label = cStr ↔ 1 / 2 ≤ r.raw_c) ∧
    (r.label = cStr ∨ r.label = ncStr) ∧
    r.probability = (if r.label = cStr then r.raw_c else r.raw_nc) := by
  unfold classify_image at h
  split at h
  · simp at h
  · simp at h
  split at h
  · simp at h
  rename_i imagePath image hdec
  split at h
  · simp at h
  rename_i probs st'' hp
  simp only [Prod.mk.injEq, Outcome.response.injEq] at h
  obtain ⟨hr, _⟩ := h
  rw [← hr]
  dsimp only
  by_cases hcmp : probs.1 ≥ zeroPointFive
  · have hle : 1 / 2 ≤ probs.1 := by
      rw [← zeroPointFive_eq]
      exact hcmp
    rw [if_pos hcmp]
    exact ⟨⟨fun _ => hle, fun _ => rfl⟩, Or.inl rfl, rfl⟩
  · have hnle : ¬ 1 / 2 ≤ probs.1 := by
      rw [← zeroPointFive_eq]
      exact hcmp
    have hcne : ncStr ≠ cStr := by decide
    rw [if_neg hcmp]
    exact ⟨⟨fun hEq => absurd hEq hcne, fun hle => absurd hle hnle⟩, Or.inr rfl, rfl⟩

/-- C9 witness: the concrete end-to-end predict over `appEnvW` yields a
response obeying the threshold and the label-probability rule. -/
theorem classify_label_threshold_witness :
    (respW.label = cStr ↔ 1 / 2 ≤ respW.raw_c) ∧
    (respW.label = cStr ∨ respW.label = ncStr) ∧
    respW.probability = (if respW.label = cStr then respW.raw_c else respW.raw_nc) :=
  classify_label_threshold appEnvW initRegistry xRelStr respW regAfterPredict rfl

/-- C10: when the raw path resolves inside the asset root to an existing file
that `cv2.imread` cannot decode, `classify_image` lets the decode error
escape unmapped — the outcome is neither the 400-class nor the 404-class
response — because `data.load_image` runs outside every `try` block. -/
theorem classify_decode_error_unmapped (env : AppEnv) (st : RegistryState)
    (raw : String) (p : List String)
    (hres : resolve_asset_path env.assetsDir env.pathExists raw = .ok p)
    (hdec : env.imread p = none) :
    classify_image env st raw = (.unhandledError msgUnableToRead, st) := by
  unfold classify_image
  rw [hres]
  simp [readDecoded, hdec]

/-- C10 witness: the concrete request whose asset exists but cannot be
decoded produces the unmapped decode error. -/
theorem classify_decode_error_unmapped_witness :
    classify_image appEnvBad initRegistry xRelStr =
      (.unhandledError msgUnableToRead, initRegistry) :=
  classify_decode_error_unmapped appEnvBad initRegistry xRelStr
    [assetsStr, xStr] rfl rfl

end Diagnose
